import Mathlib

/-!
Shallow embedding of the `openclaw-pipedrive` plugin (`src/index.ts`).

The plugin translates typed tool parameters into HTTP requests against the
Pipedrive CRM REST API.  We model:

* JSON values (`Json`) as produced by `JSON.stringify` of a JavaScript object
  (an object is a key-ordered association list; properties whose value is
  `undefined` are dropped, which `objOf` captures);
* JavaScript primitive values fed through `String(...)` coercion (`JsVal`)
  for query-string construction (`listQuery` mirrors the shared
  `for (const [key, value] of Object.entries(params)) if (value !== undefined)
  query.set(key, String(value))` loop of every list tool);
* the request builder `pipedriveRequest` (base-URL selection and non-2xx
  error shaping);
* the per-tool bodies, paths and query strings of the create/update/search
  tools the claims mention;
* the skill-template scaffolder and the `register` routine as a pure state
  transition / event trace.
-/

namespace Pipedrive

/-- JSON values, as produced by serializing a JavaScript object with
`JSON.stringify`.  Numbers are modelled as integers (every numeric parameter
of this plugin is an ID, a count or a monetary amount used as-is). -/
inductive Json where
  | str : String → Json
  | num : Int → Json
  | bool : Bool → Json
  | arr : List Json → Json
  | obj : List (String × Json) → Json
  deriving Repr

/-- A primitive JavaScript value as it can appear in a tool's parameter
object (string, number or boolean). -/
inductive JsVal where
  | s : String → JsVal
  | n : Int → JsVal
  | b : Bool → JsVal
  deriving Repr, DecidableEq

/-- JavaScript `String(value)` coercion for the primitive values above. -/
def JsVal.toJsString : JsVal → String
  | .s v => v
  | .n v => toString v
  | .b v => if v then "true" else "false"

/-- Builds a JavaScript object from a field table: a field mapped to `none`
(`undefined` in JavaScript) is dropped, every other field keeps its value.
This is exactly what `JSON.stringify` does with `undefined`-valued
properties when serializing a request body. -/
def objOf (fields : List (String × Option Json)) : List (String × Json) :=
  fields.filterMap fun kv => kv.2.map fun v => (kv.1, v)

/-- Membership in a serialized object: a key/value pair is present exactly
when the field table maps that key to `some` of that value. -/
theorem mem_objOf {fields : List (String × Option Json)} {k : String} {v : Json} :
    (k, v) ∈ objOf fields ↔ (k, some v) ∈ fields := by
  unfold objOf
  rw [List.mem_filterMap]
  constructor
  · rintro ⟨⟨k', o⟩, hmem, heq⟩
    cases o with
    | none => simp at heq
    | some w =>
      simp only [Option.map_some', Option.some.injEq, Prod.mk.injEq] at heq
      obtain ⟨hk, hv⟩ := heq
      subst hk; subst hv
      exact hmem
  · intro h
    exact ⟨(k, some v), h, rfl⟩

/-- Every key of the serialized object is a key of the field table. -/
theorem objOf_key_mem {fields : List (String × Option Json)} {k : String} {v : Json}
    (h : (k, v) ∈ objOf fields) : k ∈ fields.map Prod.fst :=
  List.mem_map.2 ⟨(k, some v), mem_objOf.1 h, rfl⟩

/-- The query string built by every list tool: iterate over the entries of
the parameter object, skip `undefined` values, and `String(...)`-coerce the
rest (`src/index.ts`, e.g. lines 234-238 for `pipedrive_list_deals`).
The query is modelled as the ordered key/value pairs held by the
`URLSearchParams` instance. -/
def listQuery (entries : List (String × Option JsVal)) : List (String × String) :=
  entries.filterMap fun kv => kv.2.map fun v => (kv.1, v.toJsString)

/-- Membership in a list tool's query string. -/
theorem mem_listQuery {entries : List (String × Option JsVal)} {k s : String} :
    (k, s) ∈ listQuery entries ↔ ∃ v : JsVal, (k, some v) ∈ entries ∧ v.toJsString = s := by
  unfold listQuery
  rw [List.mem_filterMap]
  constructor
  · rintro ⟨⟨k', o⟩, hmem, heq⟩
    cases o with
    | none => simp at heq
    | some w =>
      simp only [Option.map_some', Option.some.injEq, Prod.mk.injEq] at heq
      obtain ⟨hk, hv⟩ := heq
      subst hk
      exact ⟨w, hmem, hv⟩
  · rintro ⟨v, hmem, hs⟩
    exact ⟨(k, some v), hmem, by rw [Option.map_some', hs]⟩

/-- In a list with pairwise distinct keys (a JavaScript object), two entries
with the same key carry the same value. -/
theorem keys_nodup_unique {α : Type} {l : List (String × α)}
    (h : (l.map Prod.fst).Nodup) {k : String} {a b : α}
    (ha : (k, a) ∈ l) (hb : (k, b) ∈ l) : a = b := by
  induction l with
  | nil => cases ha
  | cons hd tl ih =>
    rw [List.map_cons, List.nodup_cons] at h
    rcases List.mem_cons.1 ha with ha' | ha' <;> rcases List.mem_cons.1 hb with hb' | hb'
    · rw [← ha'] at hb'
      exact (Prod.mk.injEq .. ▸ hb').2.symm
    · exact absurd (List.mem_map.2 ⟨(k, b), hb', rfl⟩) (by rw [← ha'] at h; exact h.1)
    · exact absurd (List.mem_map.2 ⟨(k, a), ha', rfl⟩) (by rw [← hb'] at h; exact h.1)
    · exact ih h.2 ha' hb'

/-! ## Person create/update: contact-shape shim (`src/index.ts` 357-405) -/

/-- The single structured contact entry the shim produces:
`{ value: <v>, primary: true, label: "work" }`. -/
def contactObj (v : String) : Json :=
  Json.obj [("value", Json.str v), ("primary", Json.bool true), ("label", Json.str "work")]

/-- The array-of-one-object shape transmitted for a flat contact string. -/
def contactJson (v : String) : Json :=
  Json.arr [contactObj v]

/-- Value of the `emails`/`phones` field for a given flat parameter:
`if (email) body.emails = [{ value: email, primary: true, label: "work" }]`.
An absent parameter or the empty string (both falsy) yield no field. -/
def contactVal : Option String → Option Json
  | none => none
  | some s => if s = "" then none else some (contactJson s)

/-- Parameters of `pipedrive_create_person` (`src/index.ts` 360-366). -/
structure CreatePersonParams where
  name : String
  email : Option String
  phone : Option String
  org_id : Option Int
  owner_id : Option Int

/-- Request body of `pipedrive_create_person` (`src/index.ts` 367-377):
`{ email, phone, ...rest }` destructuring keeps `name`/`org_id`/`owner_id`,
then the shim appends `emails`/`phones` when the flat strings are truthy. -/
def createPersonBody (p : CreatePersonParams) : List (String × Json) :=
  objOf [("name", some (Json.str p.name)),
         ("org_id", p.org_id.map Json.num),
         ("owner_id", p.owner_id.map Json.num),
         ("emails", contactVal p.email),
         ("phones", contactVal p.phone)]

/-- Parameters of `pipedrive_update_person` (`src/index.ts` 385-392). -/
structure UpdatePersonParams where
  id : Int
  name : Option String
  email : Option String
  phone : Option String
  org_id : Option Int
  owner_id : Option Int

/-- Request body of `pipedrive_update_person` (`src/index.ts` 393-402):
`id`, `email` and `phone` are destructured out of the body; the shim appends
`emails`/`phones` for truthy flat strings. -/
def updatePersonBody (p : UpdatePersonParams) : List (String × Json) :=
  objOf [("name", p.name.map Json.str),
         ("org_id", p.org_id.map Json.num),
         ("owner_id", p.owner_id.map Json.num),
         ("emails", contactVal p.email),
         ("phones", contactVal p.phone)]

/-- URL path of the `pipedrive_update_person` request (`/persons/${id}`). -/
def updatePersonPath (p : UpdatePersonParams) : String :=
  "/persons/" ++ toString p.id

/-! ## Update tools exclude the id from the body (`src/index.ts` 267-290,
488-505, 585-606, 742-758) -/

/-- Parameters of `pipedrive_update_deal` (`src/index.ts` 270-281). -/
structure UpdateDealParams where
  id : Int
  title : Option String
  value : Option Int
  currency : Option String
  status : Option String
  stage_id : Option Int
  owner_id : Option Int
  pipeline_id : Option Int
  expected_close_date : Option String
  lost_reason : Option String

/-- Request body of `pipedrive_update_deal`: `const { id, ...updateParams } =
params` drops `id`; everything else is serialized. -/
def updateDealBody (p : UpdateDealParams) : List (String × Json) :=
  objOf [("title", p.title.map Json.str),
         ("value", p.value.map Json.num),
         ("currency", p.currency.map Json.str),
         ("status", p.status.map Json.str),
         ("stage_id", p.stage_id.map Json.num),
         ("owner_id", p.owner_id.map Json.num),
         ("pipeline_id", p.pipeline_id.map Json.num),
         ("expected_close_date", p.expected_close_date.map Json.str),
         ("lost_reason", p.lost_reason.map Json.str)]

/-- URL path of the `pipedrive_update_deal` request (`/deals/${id}`). -/
def updateDealPath (p : UpdateDealParams) : String :=
  "/deals/" ++ toString p.id

/-- Parameters of `pipedrive_update_organization` (`src/index.ts` 491-496). -/
structure UpdateOrganizationParams where
  id : Int
  name : Option String
  address : Option String
  owner_id : Option Int

/-- Request body of `pipedrive_update_organization` (id destructured out). -/
def updateOrganizationBody (p : UpdateOrganizationParams) : List (String × Json) :=
  objOf [("name", p.name.map Json.str),
         ("address", p.address.map Json.str),
         ("owner_id", p.owner_id.map Json.num)]

/-- URL path of the `pipedrive_update_organization` request. -/
def updateOrganizationPath (p : UpdateOrganizationParams) : String :=
  "/organizations/" ++ toString p.id

/-- Parameters of `pipedrive_update_activity` (`src/index.ts` 588-597). -/
structure UpdateActivityParams where
  id : Int
  subject : Option String
  type : Option String
  due_date : Option String
  due_time : Option String
  done : Option Bool
  note : Option String
  owner_id : Option Int

/-- Request body of `pipedrive_update_activity` (id destructured out). -/
def updateActivityBody (p : UpdateActivityParams) : List (String × Json) :=
  objOf [("subject", p.subject.map Json.str),
         ("type", p.type.map Json.str),
         ("due_date", p.due_date.map Json.str),
         ("due_time", p.due_time.map Json.str),
         ("done", p.done.map Json.bool),
         ("note", p.note.map Json.str),
         ("owner_id", p.owner_id.map Json.num)]

/-- URL path of the `pipedrive_update_activity` request. -/
def updateActivityPath (p : UpdateActivityParams) : String :=
  "/activities/" ++ toString p.id

/-- Parameters of `pipedrive_update_note` (`src/index.ts` 745-748). -/
structure UpdateNoteParams where
  id : Int
  content : String

/-- Request body of `pipedrive_update_note` (id destructured out; `content`
is required). -/
def updateNoteBody (p : UpdateNoteParams) : List (String × Json) :=
  objOf [("content", some (Json.str p.content))]

/-- URL path of the `pipedrive_update_note` request. -/
def updateNotePath (p : UpdateNoteParams) : String :=
  "/notes/" ++ toString p.id

/-! ## Search tools (`src/index.ts` 186-204, 307-321, 422-436) -/

/-- Parameters of `pipedrive_search_deals`. -/
structure SearchDealsParams where
  term : String
  status : Option String
  limit : Option Int

/-- Query of `pipedrive_search_deals`: `new URLSearchParams({ term })`, then
`if (status) query.set("status", status)` and
`if (limit) query.set("limit", String(limit))` — truthiness drops the empty
string and the number zero. -/
def searchDealsQuery (p : SearchDealsParams) : List (String × String) :=
  [("term", p.term)]
    ++ (match p.status with
        | some s => if s = "" then [] else [("status", s)]
        | none => [])
    ++ (match p.limit with
        | some n => if n = 0 then [] else [("limit", toString n)]
        | none => [])

/-- Parameters of `pipedrive_search_persons`. -/
structure SearchPersonsParams where
  term : String
  limit : Option Int

/-- Query of `pipedrive_search_persons` (`src/index.ts` 314-318). -/
def searchPersonsQuery (p : SearchPersonsParams) : List (String × String) :=
  [("term", p.term)]
    ++ (match p.limit with
        | some n => if n = 0 then [] else [("limit", toString n)]
        | none => [])

/-- Parameters of `pipedrive_search_organizations`. -/
structure SearchOrganizationsParams where
  term : String
  limit : Option Int

/-- Query of `pipedrive_search_organizations` (`src/index.ts` 429-433). -/
def searchOrganizationsQuery (p : SearchOrganizationsParams) : List (String × String) :=
  [("term", p.term)]
    ++ (match p.limit with
        | some n => if n = 0 then [] else [("limit", toString n)]
        | none => [])

/-- Parameters of `pipedrive_list_deals` (`src/index.ts` 222-233). -/
structure ListDealsParams where
  status : Option String
  stage_id : Option Int
  owner_id : Option Int
  person_id : Option Int
  org_id : Option Int
  pipeline_id : Option Int
  limit : Option Int
  cursor : Option String
  sort_by : Option String
  sort_direction : Option String

/-- The `Object.entries` view of a `pipedrive_list_deals` parameter object. -/
def listDealsEntries (p : ListDealsParams) : List (String × Option JsVal) :=
  [("status", p.status.map JsVal.s),
   ("stage_id", p.stage_id.map JsVal.n),
   ("owner_id", p.owner_id.map JsVal.n),
   ("person_id", p.person_id.map JsVal.n),
   ("org_id", p.org_id.map JsVal.n),
   ("pipeline_id", p.pipeline_id.map JsVal.n),
   ("limit", p.limit.map JsVal.n),
   ("cursor", p.cursor.map JsVal.s),
   ("sort_by", p.sort_by.map JsVal.s),
   ("sort_direction", p.sort_direction.map JsVal.s)]

/-- Query string of `pipedrive_list_deals` (`src/index.ts` 234-238): the
shared undefined-skipping loop applied to its entries. -/
def listDealsQuery (p : ListDealsParams) : List (String × String) :=
  listQuery (listDealsEntries p)

/-! ## Request builder (`src/index.ts` 161-182) -/

/-- Current-version base URL `baseUrlV2` of the source:
`https://<domain>.pipedrive.com/api/v2`. -/
def baseUrlV2 (domain : String) : String :=
  "https://" ++ domain ++ ".pipedrive.com/api/v2"

/-- Legacy base URL `baseUrlV1` of the source:
`https://<domain>.pipedrive.com/api/v1`. -/
def baseUrlV1 (domain : String) : String :=
  "https://" ++ domain ++ ".pipedrive.com/api/v1"

/-- URL built by `pipedriveRequest`: the version flag selects the base path,
the endpoint (path plus any query) is appended.  The `api_token` query
parameter is attached afterwards inside the query component and does not
affect the path prefix. -/
def pipedriveRequestUrl (domain : String) (useV1 : Bool) (endpoint : String) : String :=
  (if useV1 then baseUrlV1 domain else baseUrlV2 domain) ++ endpoint

/-- A simulated HTTP response: status code, raw body text, and the JSON
value that `res.json()` would produce from that body. -/
structure HttpResponse where
  status : Nat
  bodyText : String
  bodyJson : Json

/-- Success predicate `res.ok` of the Fetch API: status in the range
200-299. -/
def statusOk (n : Nat) : Bool :=
  200 ≤ n && n < 300

/-- The error message thrown by `pipedriveRequest` on a non-2xx response:
`` `Pipedrive API error (${res.status}): ${error}` ``. -/
def apiErrorMessage (status : Nat) (bodyText : String) : String :=
  "Pipedrive API error (" ++ toString status ++ "): " ++ bodyText

/-- Response handling of `pipedriveRequest` (`src/index.ts` 177-181): throw
on non-2xx with the message above, otherwise return the parsed JSON. -/
def pipedriveHandle (resp : HttpResponse) : Except String Json :=
  if statusOk resp.status then Except.ok resp.bodyJson
  else Except.error (apiErrorMessage resp.status resp.bodyText)

/-- One string occurs inside another. -/
def strContains (s sub : String) : Prop :=
  ∃ a b : String, s = a ++ sub ++ b

/-! ## The tool table (`src/index.ts` 186-806) -/

/-- The 35 tools registered by the plugin, in registration order. -/
inductive Tool where
  | search_deals | get_deal | list_deals | create_deal | update_deal | delete_deal
  | search_persons | get_person | list_persons | create_person | update_person | delete_person
  | search_organizations | get_organization | list_organizations
  | create_organization | update_organization | delete_organization
  | list_activities | get_activity | create_activity | update_activity | delete_activity
  | list_pipelines | get_pipeline
  | list_stages | get_stage
  | list_notes | get_note | create_note | update_note | delete_note
  | list_users | get_current_user | get_user
  deriving Repr, DecidableEq

/-- The entity family a tool belongs to. -/
inductive ToolFamily where
  | deals | persons | organizations | activities | pipelines | stages | notes | users
  deriving Repr, DecidableEq

/-- Family of each tool, read off the tool's name and the section headers of
`src/index.ts`. -/
def Tool.family : Tool → ToolFamily
  | .search_deals | .get_deal | .list_deals | .create_deal | .update_deal | .delete_deal =>
      .deals
  | .search_persons | .get_person | .list_persons | .create_person | .update_person
  | .delete_person => .persons
  | .search_organizations | .get_organization | .list_organizations | .create_organization
  | .update_organization | .delete_organization => .organizations
  | .list_activities | .get_activity | .create_activity | .update_activity
  | .delete_activity => .activities
  | .list_pipelines | .get_pipeline => .pipelines
  | .list_stages | .get_stage => .stages
  | .list_notes | .get_note | .create_note | .update_note | .delete_note => .notes
  | .list_users | .get_current_user | .get_user => .users

/-- Whether the tool's `pipedriveRequest` call passes `useV1: true`
(`src/index.ts`: exactly the notes tools, lines 700-771, and the users
tools, lines 775-806). -/
def Tool.useV1 : Tool → Bool
  | .list_notes | .get_note | .create_note | .update_note | .delete_note
  | .list_users | .get_current_user | .get_user => true
  | _ => false

/-- Registered name of each tool. -/
def Tool.name : Tool → String
  | .search_deals => "pipedrive_search_deals"
  | .get_deal => "pipedrive_get_deal"
  | .list_deals => "pipedrive_list_deals"
  | .create_deal => "pipedrive_create_deal"
  | .update_deal => "pipedrive_update_deal"
  | .delete_deal => "pipedrive_delete_deal"
  | .search_persons => "pipedrive_search_persons"
  | .get_person => "pipedrive_get_person"
  | .list_persons => "pipedrive_list_persons"
  | .create_person => "pipedrive_create_person"
  | .update_person => "pipedrive_update_person"
  | .delete_person => "pipedrive_delete_person"
  | .search_organizations => "pipedrive_search_organizations"
  | .get_organization => "pipedrive_get_organization"
  | .list_organizations => "pipedrive_list_organizations"
  | .create_organization => "pipedrive_create_organization"
  | .update_organization => "pipedrive_update_organization"
  | .delete_organization => "pipedrive_delete_organization"
  | .list_activities => "pipedrive_list_activities"
  | .get_activity => "pipedrive_get_activity"
  | .create_activity => "pipedrive_create_activity"
  | .update_activity => "pipedrive_update_activity"
  | .delete_activity => "pipedrive_delete_activity"
  | .list_pipelines => "pipedrive_list_pipelines"
  | .get_pipeline => "pipedrive_get_pipeline"
  | .list_stages => "pipedrive_list_stages"
  | .get_stage => "pipedrive_get_stage"
  | .list_notes => "pipedrive_list_notes"
  | .get_note => "pipedrive_get_note"
  | .create_note => "pipedrive_create_note"
  | .update_note => "pipedrive_update_note"
  | .delete_note => "pipedrive_delete_note"
  | .list_users => "pipedrive_list_users"
  | .get_current_user => "pipedrive_get_current_user"
  | .get_user => "pipedrive_get_user"

/-- All tools in registration order (`api.registerTool` call order in
`src/index.ts`). -/
def allTools : List Tool :=
  [.search_deals, .get_deal, .list_deals, .create_deal, .update_deal, .delete_deal,
   .search_persons, .get_person, .list_persons, .create_person, .update_person, .delete_person,
   .search_organizations, .get_organization, .list_organizations,
   .create_organization, .update_organization, .delete_organization,
   .list_activities, .get_activity, .create_activity, .update_activity, .delete_activity,
   .list_pipelines, .get_pipeline,
   .list_stages, .get_stage,
   .list_notes, .get_note, .create_note, .update_note, .delete_note,
   .list_users, .get_current_user, .get_user]

/-- Names of all tools in registration order. -/
def pipedriveToolNames : List String :=
  allTools.map Tool.name

/-- URL of a tool's request: the tool's fixed version flag selects the base
path, the parameter-dependent endpoint is appended. -/
def toolRequestUrl (domain : String) (t : Tool) (endpoint : String) : String :=
  pipedriveRequestUrl domain t.useV1 endpoint

/-! ## Skill-file scaffolder (`src/index.ts` 74-98) -/

/-- The bundled skill template (`SKILL_TEMPLATE`, `src/index.ts` 7-67),
abbreviated here to its first line; the scaffolder's behaviour depends only
on string equality with the existing file, never on the template's text. -/
def SKILL_TEMPLATE : String :=
  "# Pipedrive CRM Workflows\n"

/-- The relevant filesystem state: contents of `SKILL.md` and of its sibling
`SKILL.md.latest`, when those files exist. -/
structure SkillFs where
  skill : Option String
  latest : Option String
  deriving Repr, DecidableEq

/-- A write performed by the scaffolder. -/
inductive FsWrite where
  | writeSkill : String → FsWrite
  | writeLatest : String → FsWrite
  deriving Repr, DecidableEq

/-- Scaffolder `setupSkillTemplate`, parametrized by the bundled template (so that a
template change between plugin versions is expressible): if no skill file
exists, write the template there; if it exists with identical contents, do
nothing; otherwise write the template to the `.latest` sibling only.
Returns the new filesystem state and the list of writes performed. -/
def setupSkillTemplate (template : String) (fs : SkillFs) : SkillFs × List FsWrite :=
  match fs.skill with
  | none => ({ fs with skill := some template }, [FsWrite.writeSkill template])
  | some existing =>
      if existing = template then (fs, [])
      else ({ fs with latest := some template }, [FsWrite.writeLatest template])

/-! ## Plugin registration (`src/index.ts` 150-811) -/

/-- The recognized configuration options (`PipedriveConfig`,
`src/index.ts` 100-104); `none` models an absent (`undefined`) field. -/
structure PipedriveConfig where
  apiKey : Option String
  domain : Option String
  siteUrl : Option String
  deriving Repr, DecidableEq

/-- JavaScript truthiness of an optional string: `undefined` and the empty
string are falsy. -/
def truthyOpt : Option String → Bool
  | none => false
  | some s => !(s == "")

/-- Effective domain, `const domain = cfg.domain || cfg.siteUrl`
(`src/index.ts` 154): a JavaScript `||` returns the right operand whenever
the left one is falsy. -/
def effDomain (cfg : PipedriveConfig) : Option String :=
  if truthyOpt cfg.domain then cfg.domain else cfg.siteUrl

/-- The configuration check guarding tool registration
(`if (!cfg.apiKey || !domain)`, `src/index.ts` 156). -/
def pipedriveConfigured (cfg : PipedriveConfig) : Bool :=
  truthyOpt cfg.apiKey && truthyOpt (effDomain cfg)

/-- Names of the tools `register` actually registers for a configuration:
all 35 when the check passes, none otherwise. -/
def registeredToolNames (cfg : PipedriveConfig) : List String :=
  if pipedriveConfigured cfg then pipedriveToolNames else []

/-- Observable steps of the `register` routine, in execution order. -/
inductive RegisterEvent where
  | scaffold
  | validateConfig
  | warnNotConfigured
  | toolRegistered : String → RegisterEvent
  deriving Repr, DecidableEq

/-- Event trace of `register` (`src/index.ts` 150-811): the skill file is
scaffolded first (line 151), then the configuration is read and validated
(lines 153-159), then either a warning is logged and the routine returns,
or all 35 tools are registered. -/
def registerTrace (cfg : PipedriveConfig) : List RegisterEvent :=
  RegisterEvent.scaffold :: RegisterEvent.validateConfig ::
    (if pipedriveConfigured cfg then pipedriveToolNames.map RegisterEvent.toolRegistered
     else [RegisterEvent.warnNotConfigured])

/-- Event `a` occurs strictly before event `b` in a trace. -/
def occursBefore (tr : List RegisterEvent) (a b : RegisterEvent) : Prop :=
  ∃ i j : Nat, i < j ∧ tr.get? i = some a ∧ tr.get? j = some b

/-! ## Helper lemmas shared by the claim theorems -/

/-- A pair whose key is not a key of the field table is absent from the
serialized object. -/
theorem not_mem_objOf_of_key {fields : List (String × Option Json)} {k : String}
    (h : k ∉ fields.map Prod.fst) (v : Json) : (k, v) ∉ objOf fields :=
  fun hmem => h (objOf_key_mem hmem)

/-- Value of the contact shim on a truthy (non-empty) flat string. -/
theorem contactVal_some {e : String} (he : e ≠ "") :
    contactVal (some e) = some (contactJson e) := by
  simp [contactVal, he]

/-! ## Claim theorems -/

/-- C1: for every invocation of `pipedrive_create_person` or
`pipedrive_update_person` with a non-empty `email` string, the serialized
body contains `emails: [{ value: <email>, primary: true, label: "work" }]`
and no top-level `email` field; the same holds for a non-empty `phone`
mapped to `phones`. -/
theorem person_contact_shim
    (p : CreatePersonParams) (q : UpdatePersonParams) (e : String) (he : e ≠ "") :
    (p.email = some e →
       ("emails", contactJson e) ∈ createPersonBody p ∧
       ∀ v, ("email", v) ∉ createPersonBody p) ∧
    (p.phone = some e →
       ("phones", contactJson e) ∈ createPersonBody p ∧
       ∀ v, ("phone", v) ∉ createPersonBody p) ∧
    (q.email = some e →
       ("emails", contactJson e) ∈ updatePersonBody q ∧
       ∀ v, ("email", v) ∉ updatePersonBody q) ∧
    (q.phone = some e →
       ("phones", contactJson e) ∈ updatePersonBody q ∧
       ∀ v, ("phone", v) ∉ updatePersonBody q) := by
  refine ⟨fun h => ⟨?_, ?_⟩, fun h => ⟨?_, ?_⟩, fun h => ⟨?_, ?_⟩, fun h => ⟨?_, ?_⟩⟩
  · unfold createPersonBody
    rw [mem_objOf]
    simp [h, contactVal_some he]
  · intro v
    unfold createPersonBody
    exact not_mem_objOf_of_key (by simp) v
  · unfold createPersonBody
    rw [mem_objOf]
    simp [h, contactVal_some he]
  · intro v
    unfold createPersonBody
    exact not_mem_objOf_of_key (by simp) v
  · unfold updatePersonBody
    rw [mem_objOf]
    simp [h, contactVal_some he]
  · intro v
    unfold updatePersonBody
    exact not_mem_objOf_of_key (by simp) v
  · unfold updatePersonBody
    rw [mem_objOf]
    simp [h, contactVal_some he]
  · intro v
    unfold updatePersonBody
    exact not_mem_objOf_of_key (by simp) v

/-- Witness for C1: concrete create invocation with `email: "a@b.com"`. -/
theorem person_contact_shim_witness :
    ("emails", contactJson "a@b.com") ∈
      createPersonBody ⟨"Ann", some "a@b.com", none, none, none⟩ ∧
    ("email", Json.str "a@b.com") ∉
      createPersonBody ⟨"Ann", some "a@b.com", none, none, none⟩ := by
  have h := person_contact_shim ⟨"Ann", some "a@b.com", none, none, none⟩
    ⟨1, none, some "a@b.com", none, none, none⟩ "a@b.com" (by decide)
  exact ⟨(h.1 rfl).1, (h.1 rfl).2 _⟩

/-- C9: an `email` parameter provided as the empty string is silently
dropped by both person tools: the body then contains neither `email` nor
`emails`; likewise for an empty `phone` with respect to `phone`/`phones`. -/
theorem person_empty_contact_dropped (p : CreatePersonParams) (q : UpdatePersonParams) :
    (p.email = some "" →
       ∀ v, ("email", v) ∉ createPersonBody p ∧ ("emails", v) ∉ createPersonBody p) ∧
    (p.phone = some "" →
       ∀ v, ("phone", v) ∉ createPersonBody p ∧ ("phones", v) ∉ createPersonBody p) ∧
    (q.email = some "" →
       ∀ v, ("email", v) ∉ updatePersonBody q ∧ ("emails", v) ∉ updatePersonBody q) ∧
    (q.phone = some "" →
       ∀ v, ("phone", v) ∉ updatePersonBody q ∧ ("phones", v) ∉ updatePersonBody q) := by
  refine ⟨fun h v => ⟨?_, ?_⟩, fun h v => ⟨?_, ?_⟩, fun h v => ⟨?_, ?_⟩, fun h v => ⟨?_, ?_⟩⟩
  · unfold createPersonBody
    exact not_mem_objOf_of_key (by simp) v
  · intro hv
    unfold createPersonBody at hv
    rw [mem_objOf] at hv
    simp [h, contactVal] at hv
  · unfold createPersonBody
    exact not_mem_objOf_of_key (by simp) v
  · intro hv
    unfold createPersonBody at hv
    rw [mem_objOf] at hv
    simp [h, contactVal] at hv
  · unfold updatePersonBody
    exact not_mem_objOf_of_key (by simp) v
  · intro hv
    unfold updatePersonBody at hv
    rw [mem_objOf] at hv
    simp [h, contactVal] at hv
  · unfold updatePersonBody
    exact not_mem_objOf_of_key (by simp) v
  · intro hv
    unfold updatePersonBody at hv
    rw [mem_objOf] at hv
    simp [h, contactVal] at hv

/-- Witness for C9: a concrete create invocation with `email: ""` transmits
no `emails` field. -/
theorem person_empty_contact_dropped_witness :
    ("emails", contactJson "") ∉ createPersonBody ⟨"Ann", some "", none, none, none⟩ := by
  have h := person_empty_contact_dropped ⟨"Ann", some "", none, none, none⟩
    ⟨1, none, some "", none, none, none⟩
  exact (h.1 rfl (contactJson "")).2

/-- C2: every update tool (deals, persons, organizations, activities,
notes) excludes the `id` parameter from the serialized body; the id appears
only as a path segment of the request URL. -/
theorem update_tools_exclude_id
    (d : UpdateDealParams) (p : UpdatePersonParams) (o : UpdateOrganizationParams)
    (a : UpdateActivityParams) (n : UpdateNoteParams) :
    ((∀ v, ("id", v) ∉ updateDealBody d) ∧
      updateDealPath d = "/deals/" ++ toString d.id) ∧
    ((∀ v, ("id", v) ∉ updatePersonBody p) ∧
      updatePersonPath p = "/persons/" ++ toString p.id) ∧
    ((∀ v, ("id", v) ∉ updateOrganizationBody o) ∧
      updateOrganizationPath o = "/organizations/" ++ toString o.id) ∧
    ((∀ v, ("id", v) ∉ updateActivityBody a) ∧
      updateActivityPath a = "/activities/" ++ toString a.id) ∧
    ((∀ v, ("id", v) ∉ updateNoteBody n) ∧
      updateNotePath n = "/notes/" ++ toString n.id) := by
  refine ⟨⟨fun v => ?_, rfl⟩, ⟨fun v => ?_, rfl⟩, ⟨fun v => ?_, rfl⟩,
    ⟨fun v => ?_, rfl⟩, ⟨fun v => ?_, rfl⟩⟩
  · unfold updateDealBody
    exact not_mem_objOf_of_key (by simp) v
  · unfold updatePersonBody
    exact not_mem_objOf_of_key (by simp) v
  · unfold updateOrganizationBody
    exact not_mem_objOf_of_key (by simp) v
  · unfold updateActivityBody
    exact not_mem_objOf_of_key (by simp) v
  · unfold updateNoteBody
    exact not_mem_objOf_of_key (by simp) v

/-- Witness for C2: a concrete deal update carries no `id` in the body. -/
theorem update_tools_exclude_id_witness :
    ("id", Json.num 7) ∉
      updateDealBody ⟨7, some "T", none, none, none, none, none, none, none, none⟩ := by
  exact (update_tools_exclude_id
    ⟨7, some "T", none, none, none, none, none, none, none, none⟩
    ⟨1, none, none, none, none, none⟩ ⟨2, none, none, none⟩
    ⟨3, none, none, none, none, none, none, none⟩ ⟨4, "hi"⟩).1.1 (Json.num 7)

/-- C3: for every parameter object (hence every endpoint string), a notes
or users tool builds a URL starting with
`https://<domain>.pipedrive.com/api/v1`, and a deals, persons,
organizations, activities, pipelines or stages tool builds a URL starting
with `https://<domain>.pipedrive.com/api/v2`. -/
theorem tool_version_routing (domain endpoint : String) (t : Tool) :
    (t.family = ToolFamily.notes ∨ t.family = ToolFamily.users →
       ∃ rest, toolRequestUrl domain t endpoint = baseUrlV1 domain ++ rest) ∧
    (t.family = ToolFamily.deals ∨ t.family = ToolFamily.persons ∨
     t.family = ToolFamily.organizations ∨ t.family = ToolFamily.activities ∨
     t.family = ToolFamily.pipelines ∨ t.family = ToolFamily.stages →
       ∃ rest, toolRequestUrl domain t endpoint = baseUrlV2 domain ++ rest) := by
  constructor <;> intro h <;> cases t <;>
    first
      | exact ⟨endpoint, rfl⟩
      | exact absurd h (by decide)

/-- Witness for C3: `pipedrive_list_notes` targets the v1 base path,
`pipedrive_list_deals` the v2 base path. -/
theorem tool_version_routing_witness :
    (∃ rest, toolRequestUrl "acme" Tool.list_notes "/notes?limit=5" =
       baseUrlV1 "acme" ++ rest) ∧
    (∃ rest, toolRequestUrl "acme" Tool.list_deals "/deals?limit=5" =
       baseUrlV2 "acme" ++ rest) :=
  ⟨(tool_version_routing "acme" "/notes?limit=5" Tool.list_notes).1 (Or.inl rfl),
   (tool_version_routing "acme" "/deals?limit=5" Tool.list_deals).2 (Or.inl rfl)⟩

/-- C4: a non-2xx response makes the request fail with an error whose
message contains both the numeric status code and the raw body text; the
message always has this one shape (the only error kind the builder
produces); a successful status returns the parsed JSON body unchanged. -/
theorem pipedrive_error_contract (resp : HttpResponse) :
    (statusOk resp.status = false →
       pipedriveHandle resp = Except.error (apiErrorMessage resp.status resp.bodyText) ∧
       strContains (apiErrorMessage resp.status resp.bodyText) (toString resp.status) ∧
       strContains (apiErrorMessage resp.status resp.bodyText) resp.bodyText) ∧
    (statusOk resp.status = true → pipedriveHandle resp = Except.ok resp.bodyJson) ∧
    (∀ m, pipedriveHandle resp = Except.error m →
       statusOk resp.status = false ∧ m = apiErrorMessage resp.status resp.bodyText) := by
  refine ⟨fun h => ⟨?_, ?_, ?_⟩, fun h => ?_, fun m hm => ?_⟩
  · simp [pipedriveHandle, h]
  · exact ⟨"Pipedrive API error (", "): " ++ resp.bodyText, by
      simp [apiErrorMessage, String.append_assoc]⟩
  · exact ⟨"Pipedrive API error (" ++ toString resp.status ++ "): ", "", by
      simp [apiErrorMessage, String.append_assoc]⟩
  · simp [pipedriveHandle, h]
  · rcases h : statusOk resp.status with _ | _
    · refine ⟨rfl, ?_⟩
      rw [pipedriveHandle, h] at hm
      simp only [Bool.false_eq_true, if_false, Except.error.injEq] at hm
      exact hm.symm
    · rw [pipedriveHandle, h] at hm
      simp at hm

/-- Witness for C4: a simulated 404 with body `"Not found"` fails with the
expected message. -/
theorem pipedrive_error_contract_witness :
    pipedriveHandle ⟨404, "Not found", Json.obj []⟩ =
      Except.error "Pipedrive API error (404): Not found" ∧
    strContains "Pipedrive API error (404): Not found" "404" := by
  have h := (pipedrive_error_contract ⟨404, "Not found", Json.obj []⟩).1 (by decide)
  have hmsg : apiErrorMessage 404 "Not found" = "Pipedrive API error (404): Not found" := by
    decide
  exact ⟨hmsg ▸ h.1, by
    have h2 := h.2.1
    rw [hmsg] at h2
    rwa [show toString (404 : Nat) = "404" by decide] at h2⟩

/-- C5: in every list tool's query construction, a parameter whose value is
undefined is absent from the query string, and a defined parameter
(including 0, false and the empty string) appears with its string-coerced
value.  Stated over the entries of the parameter object (a JavaScript
object, so its keys are pairwise distinct); every list tool feeds its
entries through this same `listQuery` loop. -/
theorem list_query_undefined_omitted (entries : List (String × Option JsVal))
    (hnd : (entries.map Prod.fst).Nodup) :
    (∀ k : String, (k, (none : Option JsVal)) ∈ entries →
       ∀ s, (k, s) ∉ listQuery entries) ∧
    (∀ (k : String) (v : JsVal), (k, some v) ∈ entries →
       (k, v.toJsString) ∈ listQuery entries) := by
  constructor
  · intro k hk s hs
    rw [mem_listQuery] at hs
    obtain ⟨v, hv, -⟩ := hs
    exact Option.noConfusion (keys_nodup_unique hnd hk hv)
  · intro k v hv
    exact mem_listQuery.2 ⟨v, hv, rfl⟩

/-- Witness for C5: with `limit: 0` defined, `done: false` defined and
`status` undefined, the query keeps `limit=0` and `done=false` and omits
`status`. -/
theorem list_query_undefined_omitted_witness :
    ("limit", "0") ∈
      listQuery [("limit", some (JsVal.n 0)), ("status", none), ("done", some (JsVal.b false))] ∧
    ("done", "false") ∈
      listQuery [("limit", some (JsVal.n 0)), ("status", none), ("done", some (JsVal.b false))] ∧
    ("status", "") ∉
      listQuery [("limit", some (JsVal.n 0)), ("status", none), ("done", some (JsVal.b false))] := by
  have h := list_query_undefined_omitted
    [("limit", some (JsVal.n 0)), ("status", none), ("done", some (JsVal.b false))] (by decide)
  refine ⟨?_, ?_, h.1 "status" (by decide) ""⟩
  · have := h.2 "limit" (JsVal.n 0) (by decide)
    rwa [show (JsVal.n 0).toJsString = "0" by decide] at this
  · have := h.2 "done" (JsVal.b false) (by decide)
    rwa [show (JsVal.b false).toJsString = "false" by decide] at this

/-- C6: the skill scaffolder's three-case contract — absent skill file:
write exactly the template; identical file: no writes; different file:
write the template only to the `.latest` sibling (overwriting any prior
one); whenever the skill file exists its bytes are unchanged. -/
theorem skill_scaffolder_contract (template : String) (fs : SkillFs) :
    (fs.skill = none →
       setupSkillTemplate template fs =
         ({ skill := some template, latest := fs.latest }, [FsWrite.writeSkill template])) ∧
    (fs.skill = some template → setupSkillTemplate template fs = (fs, [])) ∧
    (∀ c, fs.skill = some c → c ≠ template →
       setupSkillTemplate template fs =
         ({ skill := some c, latest := some template }, [FsWrite.writeLatest template])) ∧
    (∀ c, fs.skill = some c → (setupSkillTemplate template fs).1.skill = some c) := by
  obtain ⟨sk, la⟩ := fs
  refine ⟨fun h => ?_, fun h => ?_, fun c hc hne => ?_, fun c hc => ?_⟩
  · cases h
    rfl
  · cases h
    simp [setupSkillTemplate]
  · cases hc
    simp [setupSkillTemplate, hne]
  · cases hc
    by_cases h : c = template <;> simp [setupSkillTemplate, h]

/-- Witness for C6: a customized skill file is left untouched and the
template lands in the `.latest` sibling, replacing the previous one. -/
theorem skill_scaffolder_contract_witness :
    setupSkillTemplate "new template" ⟨some "customized", some "old latest"⟩ =
      (⟨some "customized", some "new template"⟩, [FsWrite.writeLatest "new template"]) := by
  exact (skill_scaffolder_contract "new template"
    ⟨some "customized", some "old latest"⟩).2.2.1 "customized" rfl (by decide)

/-- Counterexample for C7 as stated: the configuration
`{ apiKey: "", domain: "acme" }` has both fields present, yet `register`
registers zero tools — presence alone is not enough, the code tests
JavaScript truthiness (`!cfg.apiKey`), so an empty string disables the
plugin exactly like an absent field. -/
theorem register_presence_insufficient :
    ¬ (∀ cfg : PipedriveConfig, cfg.apiKey.isSome = true →
         (cfg.domain.isSome || cfg.siteUrl.isSome) = true →
         registeredToolNames cfg = pipedriveToolNames) := by
  intro h
  have h0 := h ⟨some "", some "acme", none⟩ rfl rfl
  rw [show registeredToolNames ⟨some "", some "acme", none⟩ = [] from rfl] at h0
  exact absurd h0 (by decide)

/-- C7 (amended): when `apiKey` is missing or empty, or every one of
`domain`/`siteUrl` is missing or empty, `register` logs its warning and
registers zero tools (and returns normally — the model is a total
function); when `apiKey` is a non-empty string and at least one of
`domain`/`siteUrl` is a non-empty string, all 35 tools are registered and
no warning is logged. -/
theorem register_requires_nonempty_config (cfg : PipedriveConfig) :
    ((truthyOpt cfg.apiKey && (truthyOpt cfg.domain || truthyOpt cfg.siteUrl)) = false →
       registeredToolNames cfg = [] ∧
       RegisterEvent.warnNotConfigured ∈ registerTrace cfg) ∧
    ((truthyOpt cfg.apiKey && (truthyOpt cfg.domain || truthyOpt cfg.siteUrl)) = true →
       registeredToolNames cfg = pipedriveToolNames ∧
       pipedriveToolNames.length = 35 ∧
       RegisterEvent.warnNotConfigured ∉ registerTrace cfg) := by
  have hconf : pipedriveConfigured cfg =
      (truthyOpt cfg.apiKey && (truthyOpt cfg.domain || truthyOpt cfg.siteUrl)) := by
    unfold pipedriveConfigured effDomain
    rcases h : truthyOpt cfg.domain <;> simp [h]
  constructor <;> intro h
  · rw [h] at hconf
    refine ⟨by simp [registeredToolNames, hconf], ?_⟩
    simp [registerTrace, hconf]
  · rw [h] at hconf
    refine ⟨by simp [registeredToolNames, hconf], by decide, ?_⟩
    simp [registerTrace, hconf]

/-- Witness for C7 (amended): with a non-empty key and a non-empty
`siteUrl` alias all tools register; with an empty key none do. -/
theorem register_requires_nonempty_config_witness :
    registeredToolNames ⟨some "tok", none, some "acme"⟩ = pipedriveToolNames ∧
    registeredToolNames ⟨some "", some "acme", none⟩ = [] :=
  ⟨((register_requires_nonempty_config ⟨some "tok", none, some "acme"⟩).2 (by decide)).1,
   ((register_requires_nonempty_config ⟨some "", some "acme", none⟩).1 (by decide)).1⟩

/-- Counterexample for C8 as stated: in the execution trace of `register`
the skill-file scaffolding (line 151 of `src/index.ts`) occurs strictly
before the configuration validation (lines 153-159), contradicting the
claimed validate-then-register-then-scaffold order. -/
theorem register_scaffold_precedes_validation :
    occursBefore (registerTrace ⟨some "tok", some "acme", none⟩)
      RegisterEvent.scaffold RegisterEvent.validateConfig :=
  ⟨0, 1, by decide, rfl, rfl⟩

/-- C8 (amended): every execution of `register` performs its steps in the
order scaffold the skill file, then validate the configuration, then either
warn or register the tools; in particular tool registration never occurs
before configuration validation. -/
theorem register_step_order (cfg : PipedriveConfig) :
    ∃ rest, registerTrace cfg =
        RegisterEvent.scaffold :: RegisterEvent.validateConfig :: rest ∧
      RegisterEvent.scaffold ∉ rest ∧ RegisterEvent.validateConfig ∉ rest := by
  refine ⟨_, rfl, ?_, ?_⟩ <;>
    rcases h : pipedriveConfigured cfg <;> simp [h]

/-- Witness for C8 (amended): the trace of a configured run starts with the
scaffold and validation steps. -/
theorem register_step_order_witness :
    (registerTrace ⟨some "tok", none, some "acme"⟩).take 2 =
      [RegisterEvent.scaffold, RegisterEvent.validateConfig] := by
  obtain ⟨rest, h, -, -⟩ := register_step_order ⟨some "tok", none, some "acme"⟩
  rw [h]
  rfl

/-- C10: every search tool always places the required `term` in the query,
but omits an optional filter provided with a falsy value (`limit: 0`, or
`status: ""` for deals) — unlike the list tools, whose shared loop keeps
any defined value (final conjunct: `limit: 0` survives in
`pipedrive_list_deals`). -/
theorem search_tools_falsy_filters (p : SearchDealsParams) (q : SearchPersonsParams)
    (r : SearchOrganizationsParams) (ld : ListDealsParams) :
    ("term", p.term) ∈ searchDealsQuery p ∧
    (p.status = some "" → ∀ s, ("status", s) ∉ searchDealsQuery p) ∧
    (p.limit = some 0 → ∀ s, ("limit", s) ∉ searchDealsQuery p) ∧
    ("term", q.term) ∈ searchPersonsQuery q ∧
    (q.limit = some 0 → ∀ s, ("limit", s) ∉ searchPersonsQuery q) ∧
    ("term", r.term) ∈ searchOrganizationsQuery r ∧
    (r.limit = some 0 → ∀ s, ("limit", s) ∉ searchOrganizationsQuery r) ∧
    (ld.limit = some 0 → ("limit", "0") ∈ listDealsQuery ld) := by
  refine ⟨?_, fun h s hs => ?_, fun h s hs => ?_, ?_, fun h s hs => ?_, ?_,
    fun h s hs => ?_, fun h => ?_⟩
  · simp [searchDealsQuery]
  · rcases hl : p.limit with _ | n
    · simp [searchDealsQuery, h, hl] at hs
    · by_cases hn : n = 0 <;> simp [searchDealsQuery, h, hl, hn] at hs
  · rcases hst : p.status with _ | st
    · simp [searchDealsQuery, h, hst] at hs
    · by_cases h0 : st = "" <;> simp [searchDealsQuery, h, hst, h0] at hs
  · simp [searchPersonsQuery]
  · simp [searchPersonsQuery, h] at hs
  · simp [searchOrganizationsQuery]
  · simp [searchOrganizationsQuery, h] at hs
  · unfold listDealsQuery
    refine mem_listQuery.2 ⟨JsVal.n 0, ?_, by decide⟩
    simp [listDealsEntries, h]

/-- Witness for C10: a concrete deal search with `status: ""` and
`limit: 0` keeps only `term`; the same `limit: 0` survives in the list
tool. -/
theorem search_tools_falsy_filters_witness :
    ("status", "") ∉ searchDealsQuery ⟨"acme", some "", some 0⟩ ∧
    ("limit", "0") ∉ searchDealsQuery ⟨"acme", some "", some 0⟩ ∧
    ("limit", "0") ∈
      listDealsQuery ⟨none, none, none, none, none, none, some 0, none, none, none⟩ := by
  have h := search_tools_falsy_filters ⟨"acme", some "", some 0⟩ ⟨"a", none⟩ ⟨"b", none⟩
    ⟨none, none, none, none, none, none, some 0, none, none, none⟩
  exact ⟨h.2.1 rfl "", h.2.2.1 rfl "0", h.2.2.2.2.2.2.2 rfl⟩

end Pipedrive
